import Mathlib

/-!
Verification development for the One-Click-Deploy core:
the runtime planner (`src/core/planner/index.ts`), the IaC generator
(`src/core/iac/generator/index.ts`), the Terraform execution runner
(`src/core/iac/runner.ts`) and the deployment pipeline orchestrator.

TypeScript values are embedded shallowly: string unions become inductives
or `String`, nullable fields become `Option`, JavaScript truthiness on
nullable strings is made explicit (`truthyStr`), and external process
invocations (git, terraform, docker, file I/O) are modelled as oracle
environments recording the outcome of each call the code makes.
-/

namespace OneClickDeploy

/-- JavaScript truthiness of a `string | null` value: `null`, and the empty
string, are falsy; every other string is truthy. -/
def truthyStr : Option String → Bool
  | none => false
  | some s => s ≠ ""

/-- JS `a || b` on a `string | null` value `a` with string default `b`. -/
def orDefaultStr (o : Option String) (d : String) : String :=
  match o with
  | none => d
  | some s => if s = "" then d else s

/-! ## Data model (`src/core/types`, fields as used by parser/planner/generator) -/

/-- The `"low" | "standard" | "high"` hint union from the parser. -/
inductive Hint where
  | low
  | standard
  | high
deriving DecidableEq, Repr

/-- The runtime families of a `Plan` (spec §3: managed-container-service =
`apprunner`, orchestrated-container-cluster = `ecs_fargate`, static-cdn-bucket
= `s3_cloudfront`, plus the `vm` variant listed in the data model). -/
inductive Runtime where
  | apprunner
  | ecs_fargate
  | s3_cloudfront
  | vm
deriving DecidableEq, Repr

structure Hints where
  cost : Hint
  perf : Hint
deriving DecidableEq, Repr

structure DataSpec where
  db : Option String
  cache : Option String
deriving DecidableEq, Repr

structure ServiceSpec where
  name : String
  type : String
deriving DecidableEq, Repr

structure DeploySpec where
  app_name : String
  env : String
  cloud : String
  region : String
  hints : Hints
  services : List ServiceSpec
  data : DataSpec
  domain : Option String
deriving DecidableEq, Repr

structure RepoApp where
  role : String
  language : String
  framework : String
  package_manager : String
  dockerfile : Bool
  build_cmd : Option String
  start_cmd : Option String
  ports : List Nat
  env_hints : List String
  needs_db : Bool
  path : String
deriving DecidableEq, Repr

structure RepoFacts where
  apps : List RepoApp
  monorepo : Bool
deriving DecidableEq, Repr

structure Network where
  https : Bool
  host : Option String
deriving DecidableEq, Repr

structure Plan where
  runtime : Runtime
  db : Option String
  front : Option String
  network : Network
deriving DecidableEq, Repr

/-! ## Planner (`src/core/planner/index.ts`) -/

/-- The static-app filter predicate used in `createPlan` and `validatePlan`:
`app.language === "static" || (app.framework === "react-vite" ||
app.framework === "create-react-app") && app.start_cmd === null`
(`&&` binds tighter than `||` in JS). -/
def isStaticApp (app : RepoApp) : Bool :=
  app.language == "static" ||
    ((app.framework == "react-vite" || app.framework == "create-react-app") &&
      app.start_cmd == none)

/-- `staticApps` filter from `createPlan`. -/
def staticApps (facts : RepoFacts) : List RepoApp :=
  facts.apps.filter isStaticApp

/-- `httpApps` filter from `createPlan`: role web or api, excluding apps in
`staticApps` (the JS `includes` test on elements of the same array is
equivalent to re-testing the static predicate). -/
def httpApps (facts : RepoFacts) : List RepoApp :=
  (facts.apps.filter (fun a => a.role == "web" || a.role == "api")).filter
    (fun a => !isStaticApp a)

/-- `workerApps` filter from `createPlan`. -/
def workerApps (facts : RepoFacts) : List RepoApp :=
  facts.apps.filter (fun a => a.role == "worker" || a.role == "cron")

/-- `needsDb` from `createPlan`: `repoFacts.apps.some(app => app.needs_db) ||
deploySpec.data.db` (truthiness of the nullable string). -/
def needsDb (spec : DeploySpec) (facts : RepoFacts) : Bool :=
  facts.apps.any (·.needs_db) || truthyStr spec.data.db

/-- `createPlan(deploySpec, repoFacts)` from `src/core/planner/index.ts`,
translated statement by statement; the successive mutations of `plan.runtime`
appear as `runtime0`..`runtime3`. -/
def createPlan (spec : DeploySpec) (facts : RepoFacts) : Plan :=
  let nDb := needsDb spec facts
  let db : Option String :=
    if nDb then some (orDefaultStr spec.data.db "postgres") else none
  let s := (staticApps facts).length
  let h := (httpApps facts).length
  let w := (workerApps facts).length
  -- decision logic; when no branch fires the default "apprunner" stands
  let runtime0 : Runtime :=
    if s > 0 && h == 0 && w == 0 then .s3_cloudfront
    else if h == 1 && w == 0 && !facts.monorepo then .apprunner
    else if h > 0 || w > 0 || facts.monorepo then .ecs_fargate
    else .apprunner
  -- monorepo routing override
  let front : Option String :=
    if facts.monorepo && s > 0 then some "s3_cloudfront" else none
  let runtime1 : Runtime :=
    if facts.monorepo && s > 0 && h > 0 then .ecs_fargate else runtime0
  -- cost adjustment
  let runtime2 : Runtime :=
    if spec.hints.cost == .low &&
        (runtime1 == .ecs_fargate && h == 1 && w == 0) then .apprunner
    else runtime1
  -- performance adjustment
  let runtime3 : Runtime :=
    if spec.hints.perf == .high &&
        (runtime2 == .apprunner && (nDb || spec.hints.perf == .high)) then
      .ecs_fargate
    else runtime2
  let host : Option String :=
    if truthyStr spec.domain then spec.domain else none
  { runtime := runtime3, db := db, front := front,
    network := { https := true, host := host } }

/-- `validatePlan(plan, deploySpec, repoFacts)` from
`src/core/planner/index.ts`. -/
def validatePlan (plan : Plan) (spec : DeploySpec) (facts : RepoFacts) :
    List String :=
  let h := (httpApps facts).length
  (if plan.runtime == .s3_cloudfront && h > 0 then
    ["Cannot use S3+CloudFront runtime with HTTP services"] else []) ++
  (if plan.runtime == .apprunner && h > 1 then
    ["App Runner cannot handle multiple HTTP services"] else []) ++
  (if truthyStr plan.db && !(facts.apps.any (·.needs_db)) &&
      !truthyStr spec.data.db then
    ["Database specified but no apps require database"] else [])

/-! Sample inhabitants used by witnesses and counterexamples. -/

/-- A Flask-style http app (`role: web`, `framework: flask`) as produced by
the analyzer for a Python repo with Flask in its requirements. -/
def flaskApp : RepoApp :=
  { role := "web", language := "python", framework := "flask",
    package_manager := "pip", dockerfile := false, build_cmd := none,
    start_cmd := some "gunicorn -b 0.0.0.0:$PORT app:app",
    ports := [5000], env_hints := ["PORT", "DATABASE_URL"],
    needs_db := true, path := "." }

/-- A static front-end app (`language: static`). -/
def staticApp : RepoApp :=
  { role := "web", language := "static", framework := "none",
    package_manager := "none", dockerfile := false, build_cmd := none,
    start_cmd := none, ports := [], env_hints := [],
    needs_db := false, path := "frontend" }

/-- A deploy spec with standard hints and no database request. -/
def baseSpec : DeploySpec :=
  { app_name := "autoapp", env := "prod", cloud := "aws",
    region := "us-east-2",
    hints := { cost := .standard, perf := .standard },
    services := [], data := { db := none, cache := none }, domain := none }

end OneClickDeploy

namespace OneClickDeploy

/-! ## Claims about the planner -/

/-- A monorepo holding one static app and one Flask http app. -/
def mixedMonorepo : RepoFacts :=
  { apps := [staticApp, flaskApp], monorepo := true }

/-- A spec asking for low cost with standard performance. -/
def lowCostSpec : DeploySpec :=
  { baseSpec with hints := { cost := .low, perf := .standard } }

/-- A spec whose `data.db` is the empty string: non-null, but falsy in JS. -/
def emptyDbSpec : DeploySpec :=
  { baseSpec with data := { db := some "", cache := none } }

/-- A repo with a single Flask app that needs a database. -/
def flaskFacts : RepoFacts := { apps := [flaskApp], monorepo := false }

/-- C4: with `hints.cost = low` and `hints.perf = high`, a monorepo with
exactly one http app and no background apps plans the `ecs_fargate` runtime:
the cost downgrade to `apprunner` fires first and the perf upgrade, evaluated
after it, restores the cluster runtime. -/
theorem c4_cost_low_perf_high_monorepo (spec : DeploySpec) (facts : RepoFacts)
    (hcost : spec.hints.cost = .low) (hperf : spec.hints.perf = .high)
    (hmono : facts.monorepo = true)
    (hhttp : (httpApps facts).length = 1)
    (hwork : (workerApps facts).length = 0) :
    (createPlan spec facts).runtime = .ecs_fargate := by
  simp only [createPlan, hcost, hperf, hmono, hhttp, hwork]
  simp

/-- C4 witness: a concrete monorepo with one Flask http app, cost low and
perf high, plans `ecs_fargate`. -/
theorem c4_cost_low_perf_high_monorepo_witness :
    (createPlan
      { baseSpec with hints := { cost := .low, perf := .high } }
      { apps := [flaskApp], monorepo := true }).runtime = .ecs_fargate :=
  c4_cost_low_perf_high_monorepo
    { baseSpec with hints := { cost := .low, perf := .high } }
    { apps := [flaskApp], monorepo := true }
    rfl rfl rfl (by decide) (by decide)

/-- C5 counterexample: a monorepo with a static app and an http app, when the
spec carries `cost = low` with `perf = standard`, is planned on `apprunner`,
not on `ecs_fargate` as the claim states (the cost downgrade fires and no perf
upgrade restores the cluster runtime). -/
theorem c5_monorepo_mixed_cex :
    (mixedMonorepo.monorepo = true ∧
      0 < (staticApps mixedMonorepo).length ∧
      0 < (httpApps mixedMonorepo).length) ∧
    (createPlan lowCostSpec mixedMonorepo).runtime ≠ Runtime.ecs_fargate := by
  decide

/-- C5 amended: a monorepo containing both a static app and an http app always
gets `front = s3_cloudfront`; the runtime is `ecs_fargate` unless the cost
hint is low with exactly one http app, no background apps and a non-high perf
hint, in which case the cost downgrade leaves it on `apprunner`. -/
theorem c5_monorepo_mixed (spec : DeploySpec) (facts : RepoFacts)
    (hmono : facts.monorepo = true)
    (hs : 0 < (staticApps facts).length)
    (hh : 0 < (httpApps facts).length) :
    (createPlan spec facts).front = some "s3_cloudfront" ∧
    (createPlan spec facts).runtime =
      (if spec.hints.cost = .low ∧ (httpApps facts).length = 1 ∧
          (workerApps facts).length = 0 ∧ spec.hints.perf ≠ .high
        then Runtime.apprunner else Runtime.ecs_fargate) := by
  have hs' : (staticApps facts).length ≠ 0 := Nat.pos_iff_ne_zero.mp hs
  have hh' : (httpApps facts).length ≠ 0 := Nat.pos_iff_ne_zero.mp hh
  by_cases hc : spec.hints.cost = .low <;>
    by_cases h1 : (httpApps facts).length = 1 <;>
      by_cases hw : (workerApps facts).length = 0 <;>
        by_cases hp : spec.hints.perf = .high <;>
          simp [createPlan, hmono, hs, hh, hs', hh', hc, h1, hw, hp,
            beq_iff_eq]

/-- C5 witness: the concrete mixed monorepo with standard hints is planned on
`ecs_fargate` with the static front. -/
theorem c5_monorepo_mixed_witness :
    (createPlan baseSpec mixedMonorepo).front = some "s3_cloudfront" ∧
    (createPlan baseSpec mixedMonorepo).runtime = Runtime.ecs_fargate := by
  have h := c5_monorepo_mixed baseSpec mixedMonorepo rfl
    (by decide) (by decide)
  simpa using h

/-- C6 counterexample: with `data.db = ""` (non-null) and no app needing a
database, `createPlan` leaves `plan.db = null`, although the claim's
condition "spec.data.db is non-null" holds — the code tests JS truthiness,
not nullness. -/
theorem c6_db_rule_cex :
    (emptyDbSpec.data.db ≠ none ∧
      (RepoFacts.mk [] false).apps.any (·.needs_db) = false) ∧
    (createPlan emptyDbSpec (RepoFacts.mk [] false)).db = none := by
  decide

/-- A falsy nullable string falls through to the default under JS `||`. -/
theorem orDefaultStr_of_falsy (o : Option String) (d : String)
    (h : truthyStr o = false) : orDefaultStr o d = d := by
  rcases o with _ | s
  · rfl
  · simp [truthyStr] at h
    simp [orDefaultStr, h]

/-- C6 amended: `plan.db` is non-null iff some app has `needs_db` or
`spec.data.db` is a non-null, non-empty string; when set it equals
`spec.data.db` whenever that is non-null and non-empty, and `"postgres"`
otherwise. -/
theorem c6_db_rule (spec : DeploySpec) (facts : RepoFacts) :
    ((createPlan spec facts).db.isSome = true ↔
      (facts.apps.any (·.needs_db) = true ∨ truthyStr spec.data.db = true)) ∧
    (∀ s : String, spec.data.db = some s → s ≠ "" →
      (createPlan spec facts).db.isSome = true →
      (createPlan spec facts).db = some s) ∧
    (truthyStr spec.data.db = false →
      (createPlan spec facts).db.isSome = true →
      (createPlan spec facts).db = some "postgres") := by
  refine ⟨?_, ?_, ?_⟩
  · by_cases ha : facts.apps.any (·.needs_db) = true <;>
      by_cases hd : truthyStr spec.data.db = true <;>
        simp [createPlan, needsDb, ha, hd]
  · intro s hdb hne _
    simp [createPlan, needsDb, truthyStr, orDefaultStr, hdb, hne]
  · intro hfalse hsome
    cases hA : facts.apps.any (·.needs_db) with
    | false => simp [createPlan, needsDb, hA, hfalse] at hsome
    | true => simp [createPlan, needsDb, hA, orDefaultStr_of_falsy _ _ hfalse]

/-- C6 witness: one Flask http app with `needs_db = true` and a null
`spec.data.db` yields the `apprunner` runtime with `db = "postgres"`. -/
theorem c6_db_rule_witness :
    (createPlan baseSpec flaskFacts).db = some "postgres" ∧
    (createPlan baseSpec flaskFacts).runtime = Runtime.apprunner :=
  ⟨(c6_db_rule baseSpec flaskFacts).2.2 (by decide) (by decide), by decide⟩

/-! ## IaC generator (`src/core/iac/generator/index.ts`) -/

/-- Stack selection of `generateIaC` (lines 19-48): a registry stack unless
the runtime is `s3_cloudfront`; then the `if / else if / else if` runtime
chain — `apprunner_service`, or `ecs_fargate_service` (plus `alb_path_router`
when `plan.front` is truthy), or `cloudfront_s3_static_site` when the chain
reaches its third test — then `rds_postgres` when `plan.db` is truthy, then
the `dynamodb_sample` fixture for cluster runs. -/
def selectStacks (plan : Plan) : List String :=
  (if plan.runtime != Runtime.s3_cloudfront then ["ecr"] else []) ++
  (if plan.runtime == Runtime.apprunner then ["apprunner_service"]
    else if plan.runtime == Runtime.ecs_fargate then
      "ecs_fargate_service" ::
        (if truthyStr plan.front then ["alb_path_router"] else [])
    else if plan.runtime == Runtime.s3_cloudfront ||
        plan.front == some "s3_cloudfront" then
      ["cloudfront_s3_static_site"]
    else []) ++
  (if truthyStr plan.db then ["rds_postgres"] else []) ++
  (if plan.runtime == Runtime.ecs_fargate then ["dynamodb_sample"] else [])

/-- The output keys declared by `generateOutputsTf`: `service_url` for the
App Runner stack, `alb_dns_name` for the Fargate stack, `cdn_url` for the
static-site stack, in that order. -/
def outputKeys (stackList : List String) : List String :=
  (if stackList.contains "apprunner_service" then ["service_url"] else []) ++
  (if stackList.contains "ecs_fargate_service" then ["alb_dns_name"] else []) ++
  (if stackList.contains "cloudfront_s3_static_site" then ["cdn_url"] else [])

/-- The process environment read by the generator
(`REGISTRY_URL`, `AWS_ACCOUNT_ID`, `TF_BUCKET`, `TF_DDB_TABLE`,
`TF_STATE_KEY`), each a nullable string. -/
structure ProcEnv where
  registry_url : Option String
  aws_account_id : Option String
  tf_bucket : Option String
  tf_ddb_table : Option String
  tf_state_key : Option String
deriving DecidableEq, Repr

/-- The registry URL computed in `generateTfVars`:
`process.env.REGISTRY_URL || account.dkr.ecr.region.amazonaws.com/app`. -/
def defaultRegistry (penv : ProcEnv) (spec : DeploySpec) : String :=
  orDefaultStr penv.registry_url
    (orDefaultStr penv.aws_account_id "123456789012" ++ ".dkr.ecr." ++
      spec.region ++ ".amazonaws.com/" ++ spec.app_name)

/-- The `terraform.tfvars.json` record produced by `generateTfVars`; keys the
function does not set for the given plan are `none`. -/
structure TfVars where
  aws_region : String
  app_name : String
  tags : List (String × String)
  image_uri : Option String
  app_port : Option Nat
  env_vars : Option (List (String × String))
  cpu : Option String
  memory : Option String
  health_check_path : Option String
  fargate_cpu : Option String
  fargate_memory : Option String
  desired_count : Option Nat
  db_name : Option String
  db_username : Option String
  db_instance_class : Option String
  db_allocated_storage : Option Nat
  db_backup_retention : Option Nat
  db_skip_final_snapshot : Option Bool
  db_deletion_protection : Option Bool
deriving DecidableEq, Repr

/-- `generateTfVars(deploySpec, plan)` (generator lines 231-297), with the
process environment and the wall-clock ISO timestamp passed explicitly (the
source's `timestamp`/`uniqueSuffix` locals are computed but never read). -/
def generateTfVars (penv : ProcEnv) (nowIso : String) (spec : DeploySpec)
    (plan : Plan) : TfVars :=
  let base : TfVars :=
    { aws_region := spec.region, app_name := spec.app_name,
      tags := [("Environment", spec.env), ("Application", spec.app_name),
        ("ManagedBy", "auto-deploy"), ("CreatedAt", nowIso)],
      image_uri := none, app_port := none, env_vars := none, cpu := none,
      memory := none, health_check_path := none, fargate_cpu := none,
      fargate_memory := none, desired_count := none, db_name := none,
      db_username := none, db_instance_class := none,
      db_allocated_storage := none, db_backup_retention := none,
      db_skip_final_snapshot := none, db_deletion_protection := none }
  let withRuntime : TfVars :=
    if plan.runtime == Runtime.apprunner then
      { base with
        image_uri := some (defaultRegistry penv spec ++ ":latest"),
        app_port := some 8080,
        env_vars := some [("PORT", "8080")],
        cpu := some (if spec.hints.perf == .high then "1 vCPU"
          else "0.25 vCPU"),
        memory := some (if spec.hints.perf == .high then "2 GB"
          else "0.5 GB"),
        health_check_path := some "/" }
    else if plan.runtime == Runtime.ecs_fargate then
      { base with
        image_uri := some (defaultRegistry penv spec ++ ":latest"),
        app_port := some 8080,
        env_vars := some [("PORT", "8080"),
          ("AWS_DEFAULT_REGION", spec.region)],
        fargate_cpu := some (if spec.hints.perf == .high then "1024"
          else if spec.hints.perf == .standard then "512" else "256"),
        fargate_memory := some (if spec.hints.perf == .high then "2048"
          else if spec.hints.perf == .standard then "1024" else "512"),
        desired_count := some 1,
        health_check_path := some "/" }
    else base
  if truthyStr plan.db then
    { withRuntime with
      db_name := some (spec.app_name.replace "-" "_"),
      db_username := some "postgres",
      db_instance_class := some (if spec.hints.cost == .low then "db.t3.micro"
        else "db.t3.small"),
      db_allocated_storage := some 20,
      db_backup_retention := some 7,
      db_skip_final_snapshot := some true,
      db_deletion_protection := some false }
  else withRuntime

/-- Files the generator writes into the run work directory. -/
inductive GenFile where
  | moduleDir (stack : String)
  | mainTf
  | variablesTf
  | tfvarsJson
  | backendTf
  | outputsTf
  | readme
deriving DecidableEq, Repr

/-- The module-copy loop (generator lines 51-56): stack modules are copied one by
one; a missing template directory makes `fs.copy` throw, leaving the modules
copied so far in place. Returns the module directories written and whether
every copy succeeded. -/
def copyModules (templatePresent : String → Bool) :
    List String → List GenFile × Bool
  | [] => ([], true)
  | s :: rest =>
    if templatePresent s then
      (GenFile.moduleDir s :: (copyModules templatePresent rest).1,
        (copyModules templatePresent rest).2)
    else ([], false)

/-- `generateIaC` as a file-system trace (lines 16-90): select the stack list,
copy each module template, then write the root files in source order —
`main.tf`, `variables.tf`, `terraform.tfvars.json`, `backend.tf`,
`outputs.tf` only when `generateOutputsTf` is non-empty, `README_RUN.md`.
Returns the files present in the work directory afterwards, and the stack
list on success or `none` when a template directory was missing. -/
def generateIaCRun (templatePresent : String → Bool) (_spec : DeploySpec)
    (plan : Plan) : List GenFile × Option (List String) :=
  let stackList := selectStacks plan
  let copied := copyModules templatePresent stackList
  if copied.2 then
    (copied.1 ++
      [GenFile.mainTf, GenFile.variablesTf, GenFile.tfvarsJson,
        GenFile.backendTf] ++
      (if outputKeys stackList ≠ [] then [GenFile.outputsTf] else []) ++
      [GenFile.readme],
      some stackList)
  else (copied.1, none)

/-- A plan for the cluster runtime without a front tier or database. -/
def ecsPlan : Plan :=
  { runtime := .ecs_fargate, db := none, front := none,
    network := { https := true, host := none } }

/-- A cluster-runtime plan whose front tier is the static CDN bucket, as the
planner produces for a monorepo with static and http apps. -/
def frontedEcsPlan : Plan :=
  { runtime := .ecs_fargate, db := none, front := some "s3_cloudfront",
    network := { https := true, host := none } }

/-- An App Runner plan without a database. -/
def appRunnerPlan : Plan :=
  { runtime := .apprunner, db := none, front := none,
    network := { https := true, host := none } }

/-- C1 counterexample: for the cluster runtime with `front = s3_cloudfront`
the generated stack list does not contain the static-site stack — the
static-site test sits in the `else if` chain behind the `ecs_fargate` branch
and is never reached. -/
theorem c1_static_stack_cex :
    (frontedEcsPlan.front = some "s3_cloudfront" ∧
      frontedEcsPlan.runtime = Runtime.ecs_fargate) ∧
    "cloudfront_s3_static_site" ∉ selectStacks frontedEcsPlan := by
  decide

/-- C1 amended: the static-site stack is selected iff the runtime itself is
`s3_cloudfront`, or `front = s3_cloudfront` while the runtime is neither
`apprunner` nor `ecs_fargate`; in particular a cluster plan with a static
front gets no static-site stack. -/
theorem c1_static_stack_selection (plan : Plan) :
    "cloudfront_s3_static_site" ∈ selectStacks plan ↔
      (plan.runtime = Runtime.s3_cloudfront ∨
        (plan.front = some "s3_cloudfront" ∧
          plan.runtime ≠ Runtime.apprunner ∧
          plan.runtime ≠ Runtime.ecs_fargate)) := by
  cases hr : plan.runtime <;>
    by_cases hf : plan.front = some "s3_cloudfront" <;>
      cases hdb : truthyStr plan.db <;>
        cases hft : truthyStr plan.front <;>
          simp_all [selectStacks, truthyStr]

/-- C7: the tfvars sizing table — for the cluster runtime the perf hint maps
to `fargate_cpu`/`fargate_memory` of 1024/2048 (high), 512/1024 (standard),
256/512 (low); for App Runner, high gives `1 vCPU`/`2 GB` and any other hint
gives `0.25 vCPU`/`0.5 GB`. -/
theorem c7_perf_sizing (penv : ProcEnv) (nowIso : String) (spec : DeploySpec)
    (plan : Plan) :
    (plan.runtime = Runtime.ecs_fargate →
      (generateTfVars penv nowIso spec plan).fargate_cpu =
        some (match spec.hints.perf with
          | .high => "1024" | .standard => "512" | .low => "256") ∧
      (generateTfVars penv nowIso spec plan).fargate_memory =
        some (match spec.hints.perf with
          | .high => "2048" | .standard => "1024" | .low => "512")) ∧
    (plan.runtime = Runtime.apprunner →
      (generateTfVars penv nowIso spec plan).cpu =
        some (if spec.hints.perf = .high then "1 vCPU" else "0.25 vCPU") ∧
      (generateTfVars penv nowIso spec plan).memory =
        some (if spec.hints.perf = .high then "2 GB" else "0.5 GB")) := by
  constructor <;> intro hr <;> cases hperf : spec.hints.perf <;>
    cases hdb : truthyStr plan.db <;>
      simp [generateTfVars, hr, hperf, hdb]

/-- An empty process environment: every variable unset. -/
def emptyProcEnv : ProcEnv :=
  { registry_url := none, aws_account_id := none, tf_bucket := none,
    tf_ddb_table := none, tf_state_key := none }

/-- C7 witness: concrete sizing values for a high-perf cluster plan and for a
standard-perf App Runner plan. -/
theorem c7_perf_sizing_witness :
    (generateTfVars emptyProcEnv "now"
        { baseSpec with hints := { cost := .standard, perf := .high } }
        ecsPlan).fargate_cpu = some "1024" ∧
    (generateTfVars emptyProcEnv "now"
        { baseSpec with hints := { cost := .standard, perf := .high } }
        ecsPlan).fargate_memory = some "2048" ∧
    (generateTfVars emptyProcEnv "now" baseSpec appRunnerPlan).cpu =
      some "0.25 vCPU" ∧
    (generateTfVars emptyProcEnv "now" baseSpec appRunnerPlan).memory =
      some "0.5 GB" := by
  refine ⟨?_, ?_, ?_, ?_⟩
  · exact ((c7_perf_sizing emptyProcEnv "now"
      { baseSpec with hints := { cost := .standard, perf := .high } }
      ecsPlan).1 rfl).1
  · exact ((c7_perf_sizing emptyProcEnv "now"
      { baseSpec with hints := { cost := .standard, perf := .high } }
      ecsPlan).1 rfl).2
  · exact ((c7_perf_sizing emptyProcEnv "now" baseSpec appRunnerPlan).2
      rfl).1
  · exact ((c7_perf_sizing emptyProcEnv "now" baseSpec appRunnerPlan).2
      rfl).2

/-- Every file emitted by the copy loop is the module directory of a stack
from the input list whose template was present, and a missing template makes
the loop report failure. -/
theorem copyModules_spec (templ : String → Bool) (l : List String) :
    ((∃ s ∈ l, templ s = false) → (copyModules templ l).2 = false) ∧
    (∀ f ∈ (copyModules templ l).1,
      ∃ s ∈ l, f = GenFile.moduleDir s ∧ templ s = true) := by
  induction l with
  | nil => simp [copyModules]
  | cons s rest ih =>
    by_cases hs : templ s = true
    · refine ⟨?_, ?_⟩
      · rintro ⟨t, ht, htf⟩
        rcases List.mem_cons.mp ht with h | h
        · rw [h] at htf; simp [hs] at htf
        · simp only [copyModules, hs, if_true]
          exact ih.1 ⟨t, h, htf⟩
      · intro f hf
        simp only [copyModules, hs, if_true, List.mem_cons] at hf
        rcases hf with h | h
        · exact ⟨s, List.mem_cons_self s rest, h, hs⟩
        · obtain ⟨t, ht, h1, h2⟩ := ih.2 f h
          exact ⟨t, List.mem_cons_of_mem s ht, h1, h2⟩
    · have hs' : templ s = false := by
        cases h : templ s
        · rfl
        · exact absurd h hs
      simp [copyModules, hs']

/-- C8 counterexample: with the `ecr` template present but the
`ecs_fargate_service` template missing, generation fails only after the
`modules/ecr` directory has already been copied, so a file has been written
before the abort. -/
theorem c8_abort_cex :
    ((fun s => s == "ecr") "ecs_fargate_service" = false ∧
      "ecs_fargate_service" ∈ selectStacks ecsPlan) ∧
    generateIaCRun (fun s => s == "ecr") baseSpec ecsPlan =
      ([GenFile.moduleDir "ecr"], none) := by
  decide

/-- C8 amended: when some selected stack's template directory is missing,
generation fails and no root file (`main.tf`, `variables.tf`, tfvars,
backend, outputs, readme) has been written — but the module directories of
the selected stackList copied before the missing one remain on disk. -/
theorem c8_abort_before_root_files (templ : String → Bool)
    (spec : DeploySpec) (plan : Plan)
    (h : ∃ s ∈ selectStacks plan, templ s = false) :
    (generateIaCRun templ spec plan).2 = none ∧
    ∀ f ∈ (generateIaCRun templ spec plan).1,
      ∃ s ∈ selectStacks plan, f = GenFile.moduleDir s ∧ templ s = true := by
  have hok := (copyModules_spec templ (selectStacks plan)).1 h
  have hmem := (copyModules_spec templ (selectStacks plan)).2
  constructor
  · simp [generateIaCRun, hok]
  · intro f hf
    simp [generateIaCRun, hok] at hf
    exact hmem f hf

/-- C8 witness: the amended statement at the concrete failing environment of
the counterexample. -/
theorem c8_abort_before_root_files_witness :
    (generateIaCRun (fun s => s == "ecr") baseSpec ecsPlan).2 = none ∧
    ∀ f ∈ (generateIaCRun (fun s => s == "ecr") baseSpec ecsPlan).1,
      ∃ s ∈ selectStacks ecsPlan, f = GenFile.moduleDir s ∧
        (fun s => s == "ecr") s = true :=
  c8_abort_before_root_files (fun s => s == "ecr") baseSpec ecsPlan
    (by decide)

/-! ## Terraform runner (`src/core/iac/runner.ts`)

External `terraform` invocations are modelled as oracle `ExecResult`s: `ok`
is whether the process exited successfully, `stdout`/`stderr` are its
captured streams, `message` is the `error.message` seen by a `catch` block
when the invocation throws. -/

structure ExecResult where
  ok : Bool
  stdout : String
  stderr : String
  message : String
deriving DecidableEq, Repr

/-- `l₂` starts with `l₁`. -/
def startsWithL : List Char → List Char → Bool
  | [], _ => true
  | _ :: _, [] => false
  | a :: as, b :: bs => a == b && startsWithL as bs

def hasSubAux (n : List Char) : List Char → Bool
  | [] => startsWithL n []
  | c :: rest => startsWithL n (c :: rest) || hasSubAux n rest

/-- JS `hay.includes(needle)`. -/
def hasSub (hay needle : String) : Bool :=
  hasSubAux needle.toList hay.toList

/-- A character of the `[a-f0-9\-]` class under the `i` flag. -/
def isHexDash (c : Char) : Bool :=
  (decide ('a' ≤ c) && decide (c ≤ 'f')) ||
  (decide ('A' ≤ c) && decide (c ≤ 'F')) || c.isDigit || c == '-'

/-- A JS `\s` whitespace character (common cases). -/
def isJsWs (c : Char) : Bool :=
  c == ' ' || c == '\t' || c == '\n' || c == '\r' || c == '\x0b' ||
    c == '\x0c'

/-- One anchor attempt of the regex `/ID:\s*([a-f0-9\-]+)/i` at the head of
the character list. -/
def lockIdAt : List Char → Option (List Char)
  | i :: d :: c :: rest =>
    if (i == 'I' || i == 'i') && (d == 'D' || d == 'd') && c == ':' then
      let body := (rest.dropWhile isJsWs).takeWhile isHexDash
      if body.isEmpty then none else some body
    else none
  | _ => none

def findLockId : List Char → Option String
  | [] => none
  | c :: rest =>
    match lockIdAt (c :: rest) with
    | some r => some r.asString
    | none => findLockId rest

/-- `all.match(/ID:\s*([a-f0-9\-]+)/i)?.[1]`: the capture of the first
position where the pattern matches. -/
def extractLockId (s : String) : Option String :=
  findLockId s.toList

/-- The stale-state-lock signature tested by both `plan` and `apply`:
both substrings must occur in the combined output. -/
def lockSignature (all : String) : Bool :=
  hasSub all "Error acquiring the state lock" &&
    hasSub all "ConditionalCheckFailedException"

/-- The pre-existing-DynamoDB-table signature tested by `apply`. -/
def importSignature (all : String) : Bool :=
  hasSub all "ResourceInUseException" && hasSub all "Table already exists"

/-- `${stdout}\n${stderr}` as assembled in the catch blocks. -/
def combinedOutput (r : ExecResult) : String :=
  r.stdout ++ "\n" ++ r.stderr

/-- Oracle for one `TerraformRunner.plan` invocation: the initial
`terraform plan`, the `terraform force-unlock` and the retried
`terraform plan`, in the order the code may issue them. -/
structure PlanEnv where
  firstPlan : ExecResult
  unlock : ExecResult
  retryPlan : ExecResult
deriving DecidableEq, Repr

/-- Observable trace of one `plan` invocation: its boolean result, the lock
ids passed to `force-unlock` calls, and how many retry `plan` commands ran. -/
structure PlanTrace where
  result : Bool
  unlockCalls : List String
  planRetries : Nat
deriving DecidableEq, Repr

/-- `TerraformRunner.plan` (runner lines 45-104): on failure, when the
combined output carries the lock signature and a lock id is extractable, the
runner force-unlocks and retries once inside a try block — a throw from
either the unlock or the retry lands in the inner catch and the method
returns `false`. -/
def runnerPlan (env : PlanEnv) : PlanTrace :=
  if env.firstPlan.ok then
    { result := true, unlockCalls := [], planRetries := 0 }
  else
    let all := combinedOutput env.firstPlan
    if lockSignature all then
      match extractLockId all with
      | some lockId =>
        if env.unlock.ok then
          { result := env.retryPlan.ok, unlockCalls := [lockId],
            planRetries := 1 }
        else
          { result := false, unlockCalls := [lockId], planRetries := 0 }
      | none => { result := false, unlockCalls := [], planRetries := 0 }
    else { result := false, unlockCalls := [], planRetries := 0 }

/-- A `TerraformResult` as returned by `apply`/`destroy`. -/
structure TfResult where
  success : Bool
  outputs : Option (List (String × String))
  error : Option String
deriving DecidableEq, Repr

/-- Oracle for one `TerraformRunner.apply` invocation. `initialPlan` feeds
the `this.plan` call made when the `tfplan` artifact is absent; `importPlan`
and `unlockPlan` feed the `this.plan` reruns inside the two recovery
branches. The single `outputs` field stands for the `terraform output -json`
result of whichever `getOutputs` call runs on the success path. -/
structure ApplyEnv where
  planArtifactExists : Bool
  initialPlan : PlanEnv
  firstApply : ExecResult
  importRes : ExecResult
  importPlan : PlanEnv
  importApply : ExecResult
  unlock : ExecResult
  unlockPlan : PlanEnv
  unlockApply : ExecResult
  outputs : List (String × String)
deriving DecidableEq, Repr

/-- The pre-existing-resource branch of `apply` reaches its success return:
signature present, `terraform import` succeeded, the plan rerun succeeded and
the retried apply succeeded. -/
def importRecovers (env : ApplyEnv) : Bool :=
  importSignature (combinedOutput env.firstApply) && env.importRes.ok &&
    (runnerPlan env.importPlan).result && env.importApply.ok

/-- The state-lock branch of `apply` reaches its success return. -/
def lockRecovers (env : ApplyEnv) : Bool :=
  lockSignature (combinedOutput env.firstApply) &&
    (extractLockId (combinedOutput env.firstApply)).isSome &&
    env.unlock.ok && (runnerPlan env.unlockPlan).result && env.unlockApply.ok

/-- `TerraformRunner.apply` (runner lines 106-224): compute the plan artifact
first when absent; on apply failure try the import branch, then the lock
branch (each bails to the shared fall-through on any throw or failed plan
rerun); the fall-through returns `success: false` with the OUTER catch's
`error.message` — the message of the first failed apply. -/
def runnerApply (env : ApplyEnv) : TfResult :=
  if !env.planArtifactExists && !(runnerPlan env.initialPlan).result then
    { success := false, outputs := none, error := some "Plan failed" }
  else if env.firstApply.ok then
    { success := true, outputs := some env.outputs, error := none }
  else if importRecovers env then
    { success := true, outputs := some env.outputs, error := none }
  else if lockRecovers env then
    { success := true, outputs := some env.outputs, error := none }
  else
    { success := false, outputs := none,
      error := some env.firstApply.message }

/-- An `ExecResult` for a successful command. -/
def okExec : ExecResult :=
  { ok := true, stdout := "", stderr := "", message := "" }

/-- A `PlanEnv` whose first plan simply succeeds. -/
def planOkEnv : PlanEnv :=
  { firstPlan := okExec, unlock := okExec, retryPlan := okExec }

/-- Combined output of a plan failure carrying the lock signature and the
lock id `ab12-cd`. -/
def lockFailOutput : String :=
  "Error acquiring the state lock: ConditionalCheckFailedException ID: ab12-cd"

/-- Plan oracle: lock-signature failure, then the force-unlock itself fails. -/
def c2FailEnv : PlanEnv :=
  { firstPlan :=
      { ok := false, stdout := lockFailOutput, stderr := "",
        message := "exit 1" },
    unlock :=
      { ok := false, stdout := "", stderr := "",
        message := "unlock failed" },
    retryPlan := okExec }

/-- Plan oracle: lock-signature failure, unlock succeeds, retry succeeds. -/
def c2OkEnv : PlanEnv :=
  { firstPlan :=
      { ok := false, stdout := lockFailOutput, stderr := "",
        message := "exit 1" },
    unlock := okExec,
    retryPlan := okExec }

/-- C2 counterexample: a plan failure matching the lock signature with an
extractable id where the `force-unlock` command itself fails — the claim's
hypotheses hold, yet the runner performs no plan retry at all (it returns
`false` from the inner catch without re-running plan). -/
theorem c2_plan_lock_recovery_cex :
    (c2FailEnv.firstPlan.ok = false ∧
      lockSignature (combinedOutput c2FailEnv.firstPlan) = true ∧
      extractLockId (combinedOutput c2FailEnv.firstPlan) = some "ab12-cd") ∧
    (runnerPlan c2FailEnv).planRetries = 0 := by
  decide

/-- C2 amended: under the lock signature with an extractable id, the runner
issues exactly one force-unlock with that id; when the unlock command
succeeds it re-runs plan exactly once and returns that retry's outcome, and
when the unlock command itself fails it performs no retry and returns
`false`. -/
theorem c2_plan_lock_recovery (env : PlanEnv) (lockId : String)
    (hfail : env.firstPlan.ok = false)
    (hsig : lockSignature (combinedOutput env.firstPlan) = true)
    (hid : extractLockId (combinedOutput env.firstPlan) = some lockId) :
    (runnerPlan env).unlockCalls = [lockId] ∧
    (runnerPlan env).planRetries = (if env.unlock.ok then 1 else 0) ∧
    (runnerPlan env).result = (env.unlock.ok && env.retryPlan.ok) := by
  cases hu : env.unlock.ok <;>
    simp [runnerPlan, hfail, hsig, hid, hu]

/-- C2 witness: the concrete lock-conflict failure with a succeeding unlock
and retry gives one unlock of `ab12-cd`, one retry, and a `true` result. -/
theorem c2_plan_lock_recovery_witness :
    (runnerPlan c2OkEnv).unlockCalls = ["ab12-cd"] ∧
    (runnerPlan c2OkEnv).planRetries = (if c2OkEnv.unlock.ok then 1 else 0) ∧
    (runnerPlan c2OkEnv).result = (c2OkEnv.unlock.ok && c2OkEnv.retryPlan.ok) :=
  c2_plan_lock_recovery c2OkEnv "ab12-cd" rfl (by decide) (by decide)

/-- Apply oracle: lock-signature apply failure, unlock and plan rerun
succeed, but the retried apply fails with its own distinct message. -/
def c3Env : ApplyEnv :=
  { planArtifactExists := true,
    initialPlan := planOkEnv,
    firstApply :=
      { ok := false, stdout := lockFailOutput, stderr := "",
        message := "original apply error" },
    importRes := okExec,
    importPlan := planOkEnv,
    importApply := okExec,
    unlock := okExec,
    unlockPlan := planOkEnv,
    unlockApply :=
      { ok := false, stdout := "", stderr := "",
        message := "retry apply error" },
    outputs := [] }

/-- C3 counterexample: the lock recovery branch is triggered and its retried
apply fails with message `retry apply error`, yet the returned result carries
the ORIGINAL failure's message `original apply error`, not the retry's. -/
theorem c3_apply_retry_error_cex :
    (c3Env.firstApply.ok = false ∧
      lockSignature (combinedOutput c3Env.firstApply) = true ∧
      (extractLockId (combinedOutput c3Env.firstApply)).isSome = true ∧
      c3Env.unlock.ok = true ∧
      (runnerPlan c3Env.unlockPlan).result = true ∧
      c3Env.unlockApply.ok = false ∧
      c3Env.unlockApply.message = "retry apply error") ∧
    runnerApply c3Env =
      { success := false, outputs := none,
        error := some "original apply error" } ∧
    ("retry apply error" : String) ≠ "original apply error" := by
  decide

/-- C3 amended: whenever the apply command runs — the `tfplan` artifact
already exists, or the in-call plan computation succeeds — and fails, and
neither recovery branch reaches its success return (in particular when a
triggered recovery's retry itself fails), the result has `success = false`
and carries the ORIGINAL failure's message; the retry's error appears only
in the logs. -/
theorem c3_apply_retry_error (env : ApplyEnv)
    (hplan : env.planArtifactExists = true ∨
      (runnerPlan env.initialPlan).result = true)
    (hfail : env.firstApply.ok = false)
    (himp : importRecovers env = false)
    (hlock : lockRecovers env = false) :
    runnerApply env =
      { success := false, outputs := none,
        error := some env.firstApply.message } := by
  rcases hplan with hp | hp <;>
    simp [runnerApply, hp, hfail, himp, hlock]

/-- C3 witness: the amended statement at the concrete lock-recovery
environment whose retried apply fails. -/
theorem c3_apply_retry_error_witness :
    runnerApply c3Env =
      { success := false, outputs := none,
        error := some c3Env.firstApply.message } :=
  c3_apply_retry_error c3Env (Or.inl rfl) rfl (by decide) (by decide)

/-! ## Pipeline orchestrator (`DeploymentPipeline.execute`)

Each external invocation (parser, git clone, analyzer, generator I/O,
builder, terraform) is an oracle field of `PipeEnv`; `Except.error m` stands
for a throw whose `error.message` is `m`. The orchestrator itself — stage
ordering, log emission, validation, the conditional patches, the catch-all —
is translated from the source. -/

/-- One structured log entry (`RunLog` without the timestamp/run-id/meta
payload, which no claim observes). -/
structure LogEntry where
  step : String
  level : String
  message : String
deriving DecidableEq, Repr

/-- Result of `buildApplication`. -/
structure BuildRes where
  success : Bool
  imageUri : Option String
  error : Option String
deriving DecidableEq, Repr

/-- `PipelineResult`. -/
structure PipelineResult where
  success : Bool
  runId : String
  serviceUrl : Option String
  error : Option String
  logs : List LogEntry
deriving DecidableEq, Repr

/-- Oracle for `cloneRepository`: the branch-pinned clone, the
`git ls-remote --symref` probe, the default-branch clone and the bare clone,
in the order the code may issue them. -/
structure CloneEnv where
  attempt1 : ExecResult
  lsRemote : ExecResult
  attempt2 : ExecResult
  attempt3 : ExecResult
deriving DecidableEq, Repr

def headerSymref : List Char := "ref: refs/heads/".toList

/-- One anchor attempt of `/ref: refs\/heads\/(\S+)\s+HEAD/` at the head of
the list: the literal header, a non-empty non-whitespace run, a non-empty
whitespace run, then `HEAD`. -/
def matchSymrefAt (l : List Char) : Option String :=
  if startsWithL headerSymref l then
    let rest := l.drop headerSymref.length
    let branch := rest.takeWhile (fun c => !isJsWs c)
    let rest2 := rest.dropWhile (fun c => !isJsWs c)
    let ws := rest2.takeWhile isJsWs
    let rest3 := rest2.dropWhile isJsWs
    if !branch.isEmpty && !ws.isEmpty && startsWithL "HEAD".toList rest3 then
      some branch.asString
    else none
  else none

def findSymref : List Char → Option String
  | [] => none
  | c :: rest =>
    match matchSymrefAt (c :: rest) with
    | some b => some b
    | none => findSymref rest

/-- `cloneRepository` (pipeline lines 268-338): preferred branch first, then
default-branch detection via `ls-remote --symref` (falling back to
`master`), then the detected branch, then a bare clone; only the failure of
the third attempt propagates. Returns the log entries it emits and its
outcome. -/
def cloneRepository (branch : Option String) (env : CloneEnv) :
    List LogEntry × Except String Unit :=
  let preferred := orDefaultStr branch "main"
  if env.attempt1.ok then
    ([⟨"clone", "info", "Repository cloned successfully"⟩], .ok ())
  else
    let l1 : LogEntry :=
      ⟨"clone", "warn", "Clone with branch '" ++ preferred ++
        "' failed, detecting default branch..."⟩
    let detected : String × LogEntry :=
      if env.lsRemote.ok then
        let found := (env.lsRemote.stdout.splitOn "\n").find?
          (fun l => l.startsWith "ref: refs/heads/")
        let db := match found with
          | some line => (findSymref line.toList).getD "master"
          | none => "master"
        (db, ⟨"clone", "info", "Detected default branch"⟩)
      else
        ("master", ⟨"clone", "warn",
          "Failed to detect default branch, falling back to 'master'"⟩)
    if env.attempt2.ok then
      ([l1, detected.2, ⟨"clone", "info", "Repository cloned successfully"⟩],
        .ok ())
    else
      let l3 : LogEntry :=
        ⟨"clone", "warn", "Clone with default branch '" ++ detected.1 ++
          "' failed, trying HEAD without branch..."⟩
      if env.attempt3.ok then
        ([l1, detected.2, l3,
          ⟨"clone", "info", "Repository cloned successfully (default HEAD)"⟩],
          .ok ())
      else
        ([l1, detected.2, l3], .error env.attempt3.message)

/-- Oracle environment for one `DeploymentPipeline.execute` run. -/
structure PipeEnv where
  runId : String
  branch : Option String
  parse : Except String DeploySpec
  cloneEnv : CloneEnv
  analyze : Except String RepoFacts
  generate : Except String Unit
  flaskPatch : Except String Unit
  useRealTerraform : Bool
  registryUrl : Option String
  build : Except String BuildRes
  preDeployPatch : Except String Unit
  terraformLogs : List String
  terraform : TfResult
deriving Repr

/-- The Flask tfvars adjustment (pipeline lines 93-109): only for the
`apprunner` runtime with a first detected app of framework `flask`; a throw
inside the patch is downgraded to a warning. -/
def flaskPatchPhase (env : PipeEnv) (facts : RepoFacts) (plan : Plan) :
    List LogEntry :=
  if plan.runtime == Runtime.apprunner &&
      (facts.apps.head?.map (·.framework)).getD "" == "flask" then
    match env.flaskPatch with
    | .ok _ => [⟨"iac_generate", "info", "Adjusted Flask settings"⟩]
    | .error m =>
      [⟨"iac_generate", "warn",
        "Failed to adjust health_check_path: " ++ m⟩]
  else []

/-- The build stage (pipeline lines 111-159): skipped for the static
runtime; real mode needs a truthy registry URL; a builder throw or a
reported build failure is rethrown after an error log; simulated mode
synthesizes `registry:runId` or warns when no registry is set. Returns the
emitted log entries and the image URI (or the thrown message). -/
def buildPhase (env : PipeEnv) (plan : Plan) :
    List LogEntry × Except String (Option String) :=
  if plan.runtime != Runtime.s3_cloudfront then
    if env.useRealTerraform && truthyStr env.registryUrl then
      match env.build with
      | .error m =>
        ([⟨"build", "info", "Building and pushing container image"⟩,
          ⟨"build", "error", "Build step failed: " ++ m⟩], .error m)
      | .ok br =>
        if br.success then
          ([⟨"build", "info", "Building and pushing container image"⟩,
            ⟨"build", "info", "Image build and push completed"⟩],
            .ok (some (orDefaultStr br.imageUri
              (orDefaultStr env.registryUrl "" ++ ":latest"))))
        else
          ([⟨"build", "info", "Building and pushing container image"⟩,
            ⟨"build", "error", "Build step failed: Image build/push failed: "
              ++ br.error.getD "undefined"⟩],
            .error ("Image build/push failed: " ++ br.error.getD "undefined"))
    else
      if truthyStr env.registryUrl then
        ([⟨"build", "info", "Building application image (simulated)"⟩,
          ⟨"build", "info", "Image build completed (simulated)"⟩],
          .ok (some (orDefaultStr env.registryUrl "" ++ ":" ++ env.runId)))
      else
        ([⟨"build", "info", "Building application image (simulated)"⟩,
          ⟨"build", "warn", "No registry URL configured, skipping image build"⟩],
          .ok none)
  else ([], .ok none)

/-- Service-URL derivation (pipeline lines 222-229): a truthy
`service_url.value` wins, else a truthy `cdn_url.value`, else nothing. -/
def deriveServiceUrl (outs : List (String × String)) : Option String :=
  if truthyStr (outs.lookup "service_url") then outs.lookup "service_url"
  else if truthyStr (outs.lookup "cdn_url") then outs.lookup "cdn_url"
  else none

/-- The deploy stage (pipeline lines 161-237) after its opening log entry:
real mode patches tfvars (throw downgraded to a warning), streams the runner
log lines, throws on terraform failure, then derives the service URL (a
missing URL is a warning, not an error); simulated mode synthesizes a
placeholder URL from the app name and runtime. -/
def deployPhase (env : PipeEnv) (spec : DeploySpec) (plan : Plan) :
    List LogEntry × Except String (Option String) :=
  if env.useRealTerraform then
    let patchLog : LogEntry :=
      match env.preDeployPatch with
      | .ok _ =>
        ⟨"deploy", "info", "Updated terraform.tfvars.json with runtime values"⟩
      | .error m =>
        ⟨"deploy", "warn", "Failed to update tfvars prior to Terraform: " ++ m⟩
    let tfStream := env.terraformLogs.map
      (fun m => (⟨"terraform", "info", m⟩ : LogEntry))
    if env.terraform.success then
      let url := deriveServiceUrl (env.terraform.outputs.getD [])
      (patchLog :: tfStream ++
        [⟨"deploy", "info", "Infrastructure deployment completed"⟩] ++
        (if url.isNone then
          [⟨"deploy", "warn", "No service URL found in Terraform outputs"⟩]
         else []),
        .ok url)
    else
      (patchLog :: tfStream,
        .error ("Terraform deployment failed: " ++
          env.terraform.error.getD "undefined"))
  else
    ([⟨"deploy", "info", "Infrastructure deployment completed (simulated)"⟩],
      .ok (some (if plan.runtime == Runtime.s3_cloudfront then
        "https://" ++ spec.app_name ++ "-static.s3.amazonaws.com/index.html"
       else
        "https://" ++ spec.app_name ++ ".amazonaws.com")))

/-- The body of the `try` block of `execute` (pipeline lines 54-250): the
accumulated log entries together with either the final service URL or the
first thrown message. -/
def pipeSteps (env : PipeEnv) : List LogEntry × Except String (Option String) :=
  let l0 : List LogEntry :=
    [⟨"pipeline", "info", "Starting deployment pipeline"⟩,
     ⟨"parse", "info", "Parsing deployment description"⟩]
  match env.parse with
  | .error m => (l0, .error m)
  | .ok spec =>
    let l1 := l0 ++
      [⟨"parse", "info", "Generated DeploySpec"⟩,
       ⟨"clone", "info", "Cloning repository"⟩]
    match (cloneRepository env.branch env.cloneEnv).2 with
    | .error m => (l1 ++ (cloneRepository env.branch env.cloneEnv).1, .error m)
    | .ok _ =>
      let l2 := l1 ++ (cloneRepository env.branch env.cloneEnv).1 ++
        [⟨"analyze", "info", "Analyzing repository structure"⟩]
      match env.analyze with
      | .error m => (l2, .error m)
      | .ok facts =>
        let l3 := l2 ++
          [⟨"analyze", "info", "Generated RepoFacts"⟩,
           ⟨"plan", "info", "Creating deployment plan"⟩]
        if (validatePlan (createPlan spec facts) spec facts).isEmpty then
          let l4 := l3 ++
            [⟨"plan", "info", "Generated deployment plan"⟩,
             ⟨"iac_generate", "info", "Generating Terraform configuration"⟩]
          match env.generate with
          | .error m => (l4, .error m)
          | .ok _ =>
            let l5 := l4 ++
              [⟨"iac_generate", "info", "Generated Terraform files"⟩] ++
              flaskPatchPhase env facts (createPlan spec facts)
            match (buildPhase env (createPlan spec facts)).2 with
            | .error m =>
              (l5 ++ (buildPhase env (createPlan spec facts)).1, .error m)
            | .ok _ =>
              let l6 := l5 ++ (buildPhase env (createPlan spec facts)).1 ++
                [⟨"deploy", "info", "Deploying infrastructure with Terraform"⟩]
              match (deployPhase env spec (createPlan spec facts)).2 with
              | .error m =>
                (l6 ++ (deployPhase env spec (createPlan spec facts)).1,
                  .error m)
              | .ok url =>
                (l6 ++ (deployPhase env spec (createPlan spec facts)).1 ++
                  [⟨"pipeline", "info",
                    "Deployment pipeline completed successfully"⟩],
                  .ok url)
        else
          (l3, .error ("Plan validation failed: " ++ String.intercalate ", "
            (validatePlan (createPlan spec facts) spec facts)))

/-- `DeploymentPipeline.execute` (pipeline lines 51-266): the catch-all
wrapper around `pipeSteps` — a total function into `PipelineResult`, so no
exception can reach the caller. -/
def execute (env : PipeEnv) : PipelineResult :=
  match (pipeSteps env).2 with
  | .ok url =>
    { success := true, runId := env.runId, serviceUrl := url,
      error := none, logs := (pipeSteps env).1 }
  | .error m =>
    { success := false, runId := env.runId, serviceUrl := none,
      error := some m,
      logs := (pipeSteps env).1 ++
        [⟨"pipeline", "error", "Deployment pipeline failed: " ++ m⟩] }

/-- Modelled from the spec (§4.4/§7 propagation policy): the message of the
first failing stage — the parse, clone, analyze, generate, build or deploy
oracle's thrown message, or the combined plan-validation message — with no
log bookkeeping. This is the claim-side description of which error a failed
run must carry, compared against `execute` below. -/
def expectedError (env : PipeEnv) : Option String :=
  match env.parse with
  | .error m => some m
  | .ok spec =>
    match (cloneRepository env.branch env.cloneEnv).2 with
    | .error m => some m
    | .ok _ =>
      match env.analyze with
      | .error m => some m
      | .ok facts =>
        if (validatePlan (createPlan spec facts) spec facts).isEmpty then
          match env.generate with
          | .error m => some m
          | .ok _ =>
            match (buildPhase env (createPlan spec facts)).2 with
            | .error m => some m
            | .ok _ =>
              match (deployPhase env spec (createPlan spec facts)).2 with
              | .error m => some m
              | .ok _ => none
        else
          some ("Plan validation failed: " ++ String.intercalate ", "
            (validatePlan (createPlan spec facts) spec facts))

/-- The try-block outcome is the error `m` exactly when the first failing
stage, as described by the spec's propagation policy, carries `m`. -/
theorem pipe_error_iff (env : PipeEnv) (m : String) :
    (pipeSteps env).2 = Except.error m ↔ expectedError env = some m := by
  cases hp : env.parse with
  | error e => simp [pipeSteps, expectedError, hp]
  | ok spec =>
    cases hcl : (cloneRepository env.branch env.cloneEnv).2 with
    | error e => simp [pipeSteps, expectedError, hp, hcl]
    | ok u =>
      cases ha : env.analyze with
      | error e => simp [pipeSteps, expectedError, hp, hcl, ha]
      | ok facts =>
        by_cases hv :
            (validatePlan (createPlan spec facts) spec facts).isEmpty = true
        · cases hg : env.generate with
          | error e => simp [pipeSteps, expectedError, hp, hcl, ha, hv, hg]
          | ok u2 =>
            cases hb : (buildPhase env (createPlan spec facts)).2 with
            | error e =>
              simp [pipeSteps, expectedError, hp, hcl, ha, hv, hg, hb]
            | ok iu =>
              cases hd :
                  (deployPhase env spec (createPlan spec facts)).2 with
              | error e =>
                simp [pipeSteps, expectedError, hp, hcl, ha, hv, hg, hb, hd]
              | ok url =>
                simp [pipeSteps, expectedError, hp, hcl, ha, hv, hg, hb, hd]
        · simp [pipeSteps, expectedError, hp, hcl, ha, hv]

/-- C9: `execute` is a total function into `PipelineResult` (no exception
reaches the caller in the model); a run succeeds exactly when no stage
failed, a failed run's `error` field carries the first failing stage's
message, and the failed result's log list is the full accumulated history
closed by the pipeline-error entry. -/
theorem c9_pipeline_error_containment (env : PipeEnv) :
    ((execute env).success = true ↔ expectedError env = none) ∧
    (execute env).error = expectedError env ∧
    (∀ m : String, expectedError env = some m →
      (execute env).logs = (pipeSteps env).1 ++
        [⟨"pipeline", "error", "Deployment pipeline failed: " ++ m⟩]) := by
  refine ⟨⟨?_, ?_⟩, ?_, ?_⟩
  · intro hs
    cases he : expectedError env with
    | none => rfl
    | some m =>
      have hq := (pipe_error_iff env m).mpr he
      simp [execute, hq] at hs
  · intro hn
    cases hq : (pipeSteps env).2 with
    | ok url => simp [execute, hq]
    | error m =>
      have := (pipe_error_iff env m).mp hq
      rw [this] at hn
      cases hn
  · cases hq : (pipeSteps env).2 with
    | ok url =>
      have hnone : expectedError env = none := by
        cases he : expectedError env with
        | none => rfl
        | some m =>
          have h2 := (pipe_error_iff env m).mpr he
          rw [hq] at h2
          cases h2
      simp [execute, hq, hnone]
    | error m =>
      have := (pipe_error_iff env m).mp hq
      simp [execute, hq, this]
  · intro m hm
    have hq := (pipe_error_iff env m).mpr hm
    simp [execute, hq]

/-- A pipeline oracle whose stages all succeed except the terraform apply,
which reports `boom`. -/
def c9Env : PipeEnv :=
  { runId := "r1", branch := none,
    parse := .ok baseSpec,
    cloneEnv :=
      { attempt1 := okExec, lsRemote := okExec, attempt2 := okExec,
        attempt3 := okExec },
    analyze := .ok flaskFacts,
    generate := .ok (),
    flaskPatch := .ok (),
    useRealTerraform := true,
    registryUrl := some "reg.example.com/app",
    build := .ok { success := true, imageUri := some "img:1", error := none },
    preDeployPatch := .ok (),
    terraformLogs := ["Running terraform init..."],
    terraform := { success := false, outputs := none, error := some "boom" } }

/-- C9 witness: for the concrete run whose terraform apply fails with
`boom`, the result is a failure carrying the deploy stage's message, and its
log list ends with the pipeline-error entry. -/
theorem c9_pipeline_error_containment_witness :
    (execute c9Env).error = expectedError c9Env ∧
    (execute c9Env).logs = (pipeSteps c9Env).1 ++
      [⟨"pipeline", "error",
        "Deployment pipeline failed: Terraform deployment failed: boom"⟩] :=
  ⟨(c9_pipeline_error_containment c9Env).2.1,
    (c9_pipeline_error_containment c9Env).2.2
      "Terraform deployment failed: boom" (by decide)⟩

/-- A key absent from every pair of an association list is not found. -/
theorem lookup_eq_none_of_ne (k : String) (outs : List (String × String))
    (h : ∀ kv ∈ outs, kv.1 ≠ k) : outs.lookup k = none := by
  induction outs with
  | nil => rfl
  | cons kv rest ih =>
    obtain ⟨a, b⟩ := kv
    have hk : a ≠ k := h (a, b) (List.mem_cons_self _ _)
    have hbeq : (k == a) = false := by
      simp only [beq_eq_false_iff_ne, ne_eq]
      exact fun he => hk he.symm
    simp only [List.lookup, hbeq]
    exact ih (fun x hx => h x (List.mem_cons_of_mem _ hx))

/-- C10: for every cluster-runtime plan the generated outputs file declares
only `alb_dns_name`; URL derivation inspects only `service_url` and
`cdn_url`, so on any outputs map drawn from the declared keys it yields
nothing; consequently a successful real-mode deploy of such a plan returns
no service URL and logs the missing-URL warning. -/
theorem c10_cluster_service_url_unset (plan : Plan)
    (hr : plan.runtime = Runtime.ecs_fargate) :
    outputKeys (selectStacks plan) = ["alb_dns_name"] ∧
    (∀ outs : List (String × String),
      (∀ kv ∈ outs, kv.1 ∈ outputKeys (selectStacks plan)) →
      deriveServiceUrl outs = none) ∧
    (∀ env : PipeEnv, ∀ spec : DeploySpec,
      env.useRealTerraform = true →
      env.terraform.success = true →
      (∀ kv ∈ env.terraform.outputs.getD [],
        kv.1 ∈ outputKeys (selectStacks plan)) →
      (deployPhase env spec plan).2 = .ok none ∧
      (⟨"deploy", "warn", "No service URL found in Terraform outputs"⟩ :
        LogEntry) ∈ (deployPhase env spec plan).1) := by
  have hkeys : outputKeys (selectStacks plan) = ["alb_dns_name"] := by
    cases hf : truthyStr plan.front <;> cases hdb : truthyStr plan.db <;>
      simp [selectStacks, outputKeys, hr, hf, hdb]
  have hderive : ∀ outs : List (String × String),
      (∀ kv ∈ outs, kv.1 ∈ outputKeys (selectStacks plan)) →
      deriveServiceUrl outs = none := by
    intro outs houts
    have h1 : outs.lookup "service_url" = none := by
      refine lookup_eq_none_of_ne _ _ (fun kv hkv => ?_)
      have := houts kv hkv
      rw [hkeys] at this
      simp at this
      simp [this]
    have h2 : outs.lookup "cdn_url" = none := by
      refine lookup_eq_none_of_ne _ _ (fun kv hkv => ?_)
      have := houts kv hkv
      rw [hkeys] at this
      simp at this
      simp [this]
    simp [deriveServiceUrl, h1, h2, truthyStr]
  refine ⟨hkeys, hderive, ?_⟩
  intro env spec hreal hsucc houts
  have hurl : deriveServiceUrl (env.terraform.outputs.getD []) = none :=
    hderive _ houts
  constructor
  · simp [deployPhase, hreal, hsucc, hurl]
  · simp [deployPhase, hreal, hsucc, hurl]

/-- C10 witness: the concrete cluster plan declares only `alb_dns_name`, and
derivation over an outputs map holding only that key yields no URL. -/
theorem c10_cluster_service_url_unset_witness :
    outputKeys (selectStacks ecsPlan) = ["alb_dns_name"] ∧
    deriveServiceUrl [("alb_dns_name", "lb.example.amazonaws.com")] = none :=
  ⟨(c10_cluster_service_url_unset ecsPlan rfl).1,
    (c10_cluster_service_url_unset ecsPlan rfl).2.1
      [("alb_dns_name", "lb.example.amazonaws.com")] (by decide)⟩

end OneClickDeploy
